import Mathlib

/-!
Verification of the image-processing pipeline (validate → thumbnails →
metadata → persist, plus the status-query read path).

Each Lambda handler is shallowly embedded as a pure Lean function.
External effects (S3 reads, Rekognition calls, the DynamoDB table, the
clock) are passed in explicitly:
  * S3 reads and label detection become `Except`-valued parameters;
  * the DynamoDB table becomes a map `String → Option PyVal` threaded
    through the persister;
  * `time.time()` becomes an explicit integer parameter.
Python dynamic values that flow into the persistence layer are embedded
as the inductive `PyVal` (strings, ints, floats with their three
non-finite points, `decimal.Decimal` values, booleans, `None`, lists,
dicts).  Strings are treated at the byte level, with ASCII assumed for
percent-escapes.
-/

/-- Value of an ASCII hex digit, as used by `urllib.parse.unquote`. -/
def hexVal (c : Char) : Option Nat :=
  if '0' ≤ c ∧ c ≤ '9' then some (c.toNat - 48)
  else if 'a' ≤ c ∧ c ≤ 'f' then some (c.toNat - 87)
  else if 'A' ≤ c ∧ c ≤ 'F' then some (c.toNat - 55)
  else none

/-- Percent-decoding pass of `urllib.parse.unquote`: a `%XY` with two hex
digits becomes the byte it denotes; an invalid escape is kept literally. -/
def unquoteChars : List Char → List Char
  | [] => []
  | '%' :: a :: b :: rest =>
    match hexVal a, hexVal b with
    | some x, some y => Char.ofNat (16 * x + y) :: unquoteChars rest
    | _, _ => '%' :: unquoteChars (a :: b :: rest)
  | c :: rest => c :: unquoteChars rest

/-- The `+`-to-space pass that `unquote_plus` applies before percent-decoding. -/
def plusToSpace (cs : List Char) : List Char :=
  cs.map (fun c => if c = '+' then ' ' else c)

/-- `urllib.parse.unquote_plus`: replace `+` by space, then percent-decode. -/
def unquotePlus (s : String) : String :=
  ⟨unquoteChars (plusToSpace s.data)⟩

/-- Python `str.lower` (ASCII fragment). -/
def pyLower (s : String) : String :=
  ⟨s.data.map Char.toLower⟩

/-- Python `str.upper` (ASCII fragment). -/
def pyUpper (s : String) : String :=
  ⟨s.data.map Char.toUpper⟩

/-- Index of the last occurrence of `c` in `cs` (`str.rfind`). -/
def lastIdxOf (cs : List Char) (c : Char) : Option Nat :=
  match cs.reverse.findIdx? (· = c) with
  | some i => some (cs.length - 1 - i)
  | none => none

/-- `os.path.splitext` (posix): split off the extension at the last dot of
the final path segment, provided some non-dot character of that segment
precedes the dot (so `.bashrc` has no extension). -/
def pySplitext (s : String) : String × String :=
  let cs := s.data
  let sep : Int := match lastIdxOf cs '/' with
    | some i => (i : Int)
    | none => -1
  match lastIdxOf cs '.' with
  | none => (s, "")
  | some d =>
    if sep < (d : Int) ∧
        ((cs.drop (sep + 1).toNat).take (d - (sep + 1).toNat)).any (· ≠ '.') then
      (⟨cs.take d⟩, ⟨cs.drop d⟩)
    else (s, "")

/-- `os.path.basename` (posix): everything after the last `/`. -/
def pyBasename (s : String) : String :=
  match lastIdxOf s.data '/' with
  | some i => ⟨s.data.drop (i + 1)⟩
  | none => s

/-- Python truthiness test for an optional string (`not x`): absent or empty. -/
def pyFalsy : Option String → Prop
  | none => True
  | some s => s = ""

instance : DecidablePred pyFalsy := by
  intro o
  cases o <;> simp [pyFalsy] <;> infer_instance

mutual

/-- A Python value as it flows through the persistence layer: strings,
ints, floats (with NaN and the two infinities as separate points; a
finite float is carried as the rational value of its decimal `repr`),
`decimal.Decimal` values (same split), booleans, `None`, lists, dicts. -/
inductive PyVal where
  | str : String → PyVal
  | int : Int → PyVal
  | ffin : ℚ → PyVal
  | fnan : PyVal
  | finf : PyVal
  | fninf : PyVal
  | dfin : ℚ → PyVal
  | dnan : PyVal
  | dinf : PyVal
  | dninf : PyVal
  | boolv : Bool → PyVal
  | nullv : PyVal
  | list : PyList → PyVal
  | dict : PyDict → PyVal
  deriving DecidableEq

/-- A Python list of `PyVal`s. -/
inductive PyList where
  | nil : PyList
  | cons : PyVal → PyList → PyList
  deriving DecidableEq

/-- A Python dict with string keys, in insertion order. -/
inductive PyDict where
  | nil : PyDict
  | cons : String → PyVal → PyDict → PyDict
  deriving DecidableEq

end

/-- Build a `PyDict` from an association list (insertion order kept). -/
def PyDict.ofList : List (String × PyVal) → PyDict
  | [] => .nil
  | (k, v) :: rest => .cons k v (PyDict.ofList rest)

/-- First value bound to `k` in the dict. -/
def PyDict.find? : PyDict → String → Option PyVal
  | .nil, _ => none
  | .cons k v d, k' => if k' = k then some v else PyDict.find? d k'

/-- Lookup in a dict-valued `PyVal`. -/
def PyVal.find? : PyVal → String → Option PyVal
  | .dict d, k => d.find? k
  | _, _ => none

/-- The supported extension allowlist of the validation Lambda
(`SUPPORTED_IMAGE_TYPES = ['.jpg', '.jpeg', '.png']`). -/
def SUPPORTED_IMAGE_TYPES : List String := [".jpg", ".jpeg", ".png"]

/-- The accumulated pipeline state: the event dict passed between the
Step Functions stages, with every field optional (absent = key missing). -/
structure PipeState where
  s3_bucket : Option String := none
  s3_key : Option String := none
  image_type : Option String := none
  validation_status : Option String := none
  thumbnails : Option (List (String × String)) := none
  thumbnail_generation_status : Option String := none
  extracted_metadata : Option PyVal := none
  metadata_extraction_status : Option String := none
  dynamodb_storage_status : Option String := none
  overall_processing_status : Option String := none
  deriving DecidableEq

/-- The raw trigger payload as the validation Lambda sees it: the flat
`s3_bucket`/`s3_key` pair and the nested `bucket.name`/`object.key`
pair are modelled as four optional fields. -/
structure TriggerEvent where
  s3_bucket : Option String := none
  s3_key : Option String := none
  bucketName : Option String := none
  objectKey : Option String := none
  deriving DecidableEq

/-- The exceptions the handlers raise (each stage re-raises, so an error
means the stage emitted no state). -/
inductive Err where
  | malformedTrigger : Err
  | unsupportedFormat : String → List String → Err
  | envError : Err
  | keyError : Err
  | fetchError : String → Err
  | jsonTypeError : Err
  | dynamoFloatError : Err
  deriving DecidableEq

/-- The validation Lambda (`image-validation-lambda/lambda_function.py`,
active `lambda_handler`): reads only the nested `bucket.name` /
`object.key` fields, raises `ValueError` when either is falsy, decodes
the key with `unquote_plus`, splits the extension off the lower-cased
key, and accepts iff the extension is in `SUPPORTED_IMAGE_TYPES`. -/
def validate (e : TriggerEvent) : Except Err PipeState :=
  let bucket_name := e.bucketName
  let object_key := e.objectKey
  if pyFalsy bucket_name ∨ pyFalsy object_key then
    .error .malformedTrigger
  else
    match bucket_name, object_key with
    | some b, some k =>
      let dk := unquotePlus k
      let ext := (pySplitext (pyLower dk)).2
      if ext ∈ SUPPORTED_IMAGE_TYPES then
        .ok { s3_bucket := some b, s3_key := some dk, image_type := some ext,
              validation_status := some "SUCCESS" }
      else
        .error (.unsupportedFormat ext SUPPORTED_IMAGE_TYPES)
    | _, _ => .error .malformedTrigger

/-- The source image as decoded by `PIL.Image.open`: native format (PIL
reports `None` for some streams), pixel dimensions, colour mode. -/
structure SrcImage where
  format : Option String := some "JPEG"
  width : Nat := 1
  height : Nat := 1
  mode : String := "RGB"
  deriving DecidableEq

/-- One `s3_client.put_object` performed by the thumbnail stage: target
bucket and key, plus the pixel dimensions of the encoded thumbnail. -/
structure Put where
  bucket : String
  key : String
  width : Nat
  height : Nat
  deriving DecidableEq

/-- Result of the thumbnail stage: the uploads it performed and the
state it returned. -/
structure ThumbResult where
  puts : List Put
  out : PipeState
  deriving DecidableEq

/-- Output-format normalisation of the thumbnail stage:
`img.format if img.format else 'JPEG'`, then fall back to `'JPEG'`
unless the upper-cased format is `JPEG` or `PNG`. -/
def normalizeFormat (f : Option String) : String :=
  let g := match f with
    | some s => if s = "" then "JPEG" else s
    | none => "JPEG"
  if pyUpper g ∈ ["JPEG", "PNG"] then g else "JPEG"

/-- Python `min(f, c, key=...)` on the two candidates: the one with the
smaller key, the first on ties. -/
def pickMin (f c : Nat) (kf kc : ℚ) : Nat :=
  if kf ≤ kc then f else c

/-- `Image.thumbnail`'s `round_aspect` in its first branch:
`max(min(floor(q), ceil(q), key=lambda n: abs(aspect - n / y)), 1)`. -/
def roundAspect1 (aspect : ℚ) (y : Nat) : Nat :=
  let q : ℚ := (y : ℚ) * aspect
  let f : Nat := (Int.floor q).toNat
  let c : Nat := (Int.ceil q).toNat
  max (pickMin f c |aspect - (f : ℚ) / (y : ℚ)| |aspect - (c : ℚ) / (y : ℚ)|) 1

/-- `Image.thumbnail`'s `round_aspect` in its second branch:
`max(min(floor(q), ceil(q), key=lambda n: 0 if n == 0 else abs(aspect - x / n)), 1)`. -/
def roundAspect2 (aspect : ℚ) (x : Nat) : Nat :=
  let q : ℚ := (x : ℚ) / aspect
  let f : Nat := (Int.floor q).toNat
  let c : Nat := (Int.ceil q).toNat
  let kf : ℚ := if f = 0 then 0 else |aspect - (x : ℚ) / (f : ℚ)|
  let kc : ℚ := if c = 0 then 0 else |aspect - (x : ℚ) / (c : ℚ)|
  max (pickMin f c kf kc) 1

/-- Dimensions produced by Pillow's `Image.thumbnail((tw, th))` on a
`w × h` image (rationals in place of Python floats): unchanged when the
image already fits the box, otherwise the aspect-preserving fit. -/
def pilThumbnail (w h tw th : Nat) : Nat × Nat :=
  if tw ≥ w ∧ th ≥ h then (w, h)
  else
    let aspect : ℚ := (w : ℚ) / (h : ℚ)
    if (tw : ℚ) / (th : ℚ) ≥ aspect then
      (roundAspect1 aspect th, th)
    else
      (tw, roundAspect2 aspect tw)

/-- Key under which one thumbnail is uploaded:
`f"thumbnails/{base_filename}_{width}x{height}.{original_format.lower()}"`. -/
def thumbKey (base : String) (w h : Nat) (fmt : String) : String :=
  "thumbnails/" ++ base ++ "_" ++ toString w ++ "x" ++ toString h ++ "." ++ pyLower fmt

/-- Size label used in the `thumbnails` map: `f"{width}x{height}"`. -/
def sizeLabel (w h : Nat) : String :=
  toString w ++ "x" ++ toString h

/-- Location recorded in the `thumbnails` map: `s3://{bucket}/{key}`. -/
def s3Url (bucket key : String) : String :=
  "s3://" ++ bucket ++ "/" ++ key

/-- The thumbnail Lambda (`generate-thumbnails-lambda/lambda_function.py`):
raises when the bucket env var is unset or the event lacks
`s3_bucket`/`s3_key`; decodes the key with `unquote_plus`; fetches the
source once; normalises the output format; and, per configured size,
resizes with `Image.thumbnail` and uploads at the derived key, finally
returning the event extended with the `thumbnails` map and
`thumbnail_generation_status = SUCCESS`. -/
def generateThumbnails (thumbBucket : Option String) (sizes : List (Nat × Nat))
    (ev : PipeState) (fetch : Except String SrcImage) : Except Err ThumbResult :=
  match thumbBucket with
  | none => .error .envError
  | some bucket =>
    match ev.s3_bucket, ev.s3_key with
    | some _, some k =>
      let dk := unquotePlus k
      match fetch with
      | .error e => .error (.fetchError e)
      | .ok img =>
        let fmt := normalizeFormat img.format
        let base := (pySplitext (pyBasename dk)).1
        let puts := sizes.map (fun wh =>
          let dims := pilThumbnail img.width img.height wh.1 wh.2
          { bucket := bucket, key := thumbKey base wh.1 wh.2 fmt,
            width := dims.1, height := dims.2 : Put })
        let locs := sizes.map (fun wh =>
          (sizeLabel wh.1 wh.2, s3Url bucket (thumbKey base wh.1 wh.2 fmt)))
        .ok { puts := puts,
              out := { ev with thumbnails := some locs,
                               thumbnail_generation_status := some "SUCCESS" } }
    | _, _ => .error .keyError

/-- What the metadata stage reads from S3 and Pillow: the byte length of
the object and the decoded image attributes. -/
structure FetchedImage where
  dataLen : Nat := 0
  format : Option String := some "JPEG"
  width : Nat := 1
  height : Nat := 1
  mode : String := "RGB"
  deriving DecidableEq

/-- `img.format` as stored into the metadata dict (`None` when PIL
cannot name the format). -/
def formatVal : Option String → PyVal
  | some s => .str s
  | none => .nullv

/-- Rekognition labels as the stage stores them:
`[{'Name': ..., 'Confidence': ...}]`, the confidence a float. -/
def labelsVal : List (String × ℚ) → PyList
  | [] => .nil
  | (n, c) :: rest =>
    .cons (.dict (.cons "Name" (.str n) (.cons "Confidence" (.ffin c) .nil)))
      (labelsVal rest)

/-- The intrinsic metadata dict built by the metadata stage. -/
def intrinsicMeta (dk : String) (fi : FetchedImage) : PyDict :=
  .cons "filename" (.str (pyBasename dk))
    (.cons "filesize_bytes" (.int fi.dataLen)
      (.cons "format" (formatVal fi.format)
        (.cons "width_pixels" (.int fi.width)
          (.cons "height_pixels" (.int fi.height)
            (.cons "mode" (.str fi.mode) .nil)))))

/-- Append one binding at the end of a dict (`d[k] = v` for a fresh key). -/
def PyDict.append : PyDict → String → PyVal → PyDict
  | .nil, k, v => .cons k v .nil
  | .cons k0 v0 d, k, v => .cons k0 v0 (PyDict.append d k v)

/-- The metadata Lambda (`extract-metadata-lambda/lambda_function.py`):
raises when the event lacks `s3_bucket`/`s3_key` or the fetch/decode
fails; builds the intrinsic metadata dict; when Rekognition is enabled,
records the labels on success and `rekognition_error = str(e)` on
failure (caught, not re-raised); always returns the event extended with
`extracted_metadata` and `metadata_extraction_status = SUCCESS`. -/
def extractMetadata (useRek : Bool) (ev : PipeState)
    (fetch : Except String FetchedImage)
    (rek : Except String (List (String × ℚ))) : Except Err PipeState :=
  match ev.s3_bucket, ev.s3_key with
  | some _, some k =>
    let dk := unquotePlus k
    match fetch with
    | .error e => .error (.fetchError e)
    | .ok fi =>
      let metadata := intrinsicMeta dk fi
      let metadata :=
        if useRek then
          match rek with
          | .ok labels => metadata.append "rekognition_labels" (.list (labelsVal labels))
          | .error e => metadata.append "rekognition_error" (.str e)
        else metadata
      .ok { ev with extracted_metadata := some (.dict metadata),
                    metadata_extraction_status := some "SUCCESS" }
  | _, _ => .error .keyError

mutual

/-- `json.dumps(·, cls=DecimalEncoder)` followed by
`json.loads(·, parse_float=decimal.Decimal, parse_int=decimal.Decimal)`
(`store-results-lambda/lambda_function.py` lines 74–75).  `json.dumps`
serialises `float` and `int` natively, so `DecimalEncoder.default` is
only ever invoked for `decimal.Decimal` values: a non-finite float is
emitted as the bare literal `NaN`/`Infinity`/`-Infinity` and read back
as a float by the default `parse_constant`; a finite float comes back as
a `Decimal` via `parse_float`; an `int` via `parse_int`; a non-finite
`Decimal` becomes its sentinel string; a finite `Decimal` falls through
`default` to `json.JSONEncoder.default`, which raises `TypeError`. -/
def encV : PyVal → Except Err PyVal
  | .str s => .ok (.str s)
  | .int n => .ok (.dfin (n : ℚ))
  | .ffin q => .ok (.dfin q)
  | .fnan => .ok .fnan
  | .finf => .ok .finf
  | .fninf => .ok .fninf
  | .dfin _ => .error .jsonTypeError
  | .dnan => .ok (.str "NaN")
  | .dinf => .ok (.str "Infinity")
  | .dninf => .ok (.str "-Infinity")
  | .boolv b => .ok (.boolv b)
  | .nullv => .ok .nullv
  | .list xs => (encL xs).map .list
  | .dict d => (encD d).map .dict

/-- `encV` mapped over a list. -/
def encL : PyList → Except Err PyList
  | .nil => .ok .nil
  | .cons v rest =>
    match encV v with
    | .error e => .error e
    | .ok v' => (encL rest).map (.cons v')

/-- `encV` mapped over the values of a dict. -/
def encD : PyDict → Except Err PyDict
  | .nil => .ok .nil
  | .cons k v rest =>
    match encV v with
    | .error e => .error e
    | .ok v' => (encD rest).map (.cons k v')

end

mutual

/-- Whether a value still contains a Python `float` leaf.  boto3's
DynamoDB serialiser raises `TypeError` on any `float`, finite or not. -/
def hasFloatV : PyVal → Bool
  | .ffin _ => true
  | .fnan => true
  | .finf => true
  | .fninf => true
  | .list xs => hasFloatL xs
  | .dict d => hasFloatD d
  | _ => false

/-- `hasFloatV` over a list. -/
def hasFloatL : PyList → Bool
  | .nil => false
  | .cons v rest => hasFloatV v || hasFloatL rest

/-- `hasFloatV` over a dict. -/
def hasFloatD : PyDict → Bool
  | .nil => false
  | .cons _ v rest => hasFloatV v || hasFloatD rest

end

/-- The DynamoDB table, as a key-to-item map. -/
def DStore : Type := String → Option PyVal

/-- The empty table. -/
def emptyStore : DStore := fun _ => none

/-- `table.put_item`: unconditional overwrite at the key. -/
def dput (s : DStore) (k : String) (v : PyVal) : DStore :=
  fun k' => if k' = k then some v else s k'

/-- An optional string as the stored attribute value (`None` when the
event lacked the field, which `.get` returns). -/
def optStrV : Option String → PyVal
  | some s => .str s
  | none => .nullv

/-- The `thumbnails` map as a dict of location strings. -/
def thumbsVal : List (String × String) → PyDict
  | [] => .nil
  | (k, v) :: rest => .cons k (.str v) (thumbsVal rest)

/-- `item_to_store` as the persister builds it (lines 56–69), with
`imageId = unquote_plus(event['s3_key'])` and both timestamps set to the
current write's time. -/
def buildItem (ev : PipeState) (imageId : String) (now : Int) : PyVal :=
  .dict (PyDict.ofList
    [("ImageKey", .str imageId),
     ("s3_bucket_original", optStrV ev.s3_bucket),
     ("s3_key_original", optStrV ev.s3_key),
     ("image_type", optStrV ev.image_type),
     ("validation_status", optStrV ev.validation_status),
     ("thumbnails", .dict (thumbsVal (ev.thumbnails.getD []))),
     ("thumbnail_generation_status", optStrV ev.thumbnail_generation_status),
     ("extracted_metadata", ev.extracted_metadata.getD (.dict .nil)),
     ("metadata_extraction_status", optStrV ev.metadata_extraction_status),
     ("overall_processing_status", .str "COMPLETED"),
     ("created_at", .int now),
     ("updated_at", .int now)])

/-- The persistence Lambda (`store-results-lambda/lambda_function.py`):
raises `KeyError` without `s3_key`; builds the item keyed by the
`unquote_plus`-decoded key; round-trips it through `json.dumps`/`loads`
(`encV`); hands it to `put_item`, which rejects any remaining float;
and returns the event extended with `dynamodb_storage_status = SUCCESS`
and `overall_processing_status = COMPLETED`. -/
def storeResults (ev : PipeState) (now : Int) (store : DStore) :
    Except Err (DStore × PipeState) :=
  match ev.s3_key with
  | none => .error .keyError
  | some k =>
    let imageId := unquotePlus k
    match encV (buildItem ev imageId now) with
    | .error e => .error e
    | .ok cleaned =>
      if hasFloatV cleaned then .error .dynamoFloatError
      else
        .ok (dput store imageId cleaned,
             { ev with dynamodb_storage_status := some "SUCCESS",
                       overall_processing_status := some "COMPLETED" })

/-- An API Gateway proxy event as the status Lambda reads it: an
optional `pathParameters` dict, itself optionally carrying `imageId`. -/
structure ApiEvent where
  pathParameters : Option (Option String) := none
  deriving DecidableEq

/-- The JSON body of a status response, structurally. -/
inductive RBody where
  | errBody : String → RBody
  | notFoundBody : RBody
  | itemBody : PyVal → RBody
  deriving DecidableEq

/-- An API Gateway response: status code and body. -/
structure Response where
  statusCode : Nat
  body : RBody
  deriving DecidableEq

/-- The status Lambda (`status-check-lambda/lambda_function.py`): 500
when the table env var is unset; 400 when `pathParameters`/`imageId` is
missing; otherwise a single `get_item` at `image_id_to_query =
image_id_from_path` (the path parameter used verbatim), answering 200
with the item or 404 with the not-found message. -/
def statusCheck (tableName : Option String) (store : DStore) (ev : ApiEvent) : Response :=
  match tableName with
  | none =>
    { statusCode := 500,
      body := .errBody "Internal server error: DynamoDB table name not configured." }
  | some _ =>
    match ev.pathParameters with
    | none => { statusCode := 400, body := .errBody "imageId path parameter is missing." }
    | some pp =>
      match pp with
      | none => { statusCode := 400, body := .errBody "imageId path parameter is missing." }
      | some imageId =>
        let image_id_to_query := imageId
        match store image_id_to_query with
        | some item => { statusCode := 200, body := .itemBody item }
        | none => { statusCode := 404, body := .notFoundBody }

/-- The whole Step Functions chain, validator through persister, with
every external effect injected. -/
def runPipeline (trigger : TriggerEvent) (thumbBucket : Option String)
    (sizes : List (Nat × Nat)) (fetchT : Except String SrcImage)
    (useRek : Bool) (fetchM : Except String FetchedImage)
    (rek : Except String (List (String × ℚ))) (now : Int) (store : DStore) :
    Except Err (DStore × PipeState) :=
  match validate trigger with
  | .error e => .error e
  | .ok s1 =>
    match generateThumbnails thumbBucket sizes s1 fetchT with
    | .error e => .error e
    | .ok tr =>
      match extractMetadata useRek tr.out fetchM rek with
      | .error e => .error e
      | .ok s3 => storeResults s3 now store

lemma plusToSpace_id {cs : List Char} (h : ∀ c ∈ cs, c ≠ '+') : plusToSpace cs = cs := by
  induction cs with
  | nil => rfl
  | cons c rest ih =>
    simp only [plusToSpace, List.map_cons] at ih ⊢
    rw [if_neg (h c (List.mem_cons_self c rest))]
    exact congrArg (c :: ·) (ih fun d hd => h d (List.mem_cons_of_mem c hd))

lemma unquoteChars_cons_ne {c : Char} (rest : List Char) (hc : c ≠ '%') :
    unquoteChars (c :: rest) = c :: unquoteChars rest := by
  conv_lhs => unfold unquoteChars
  split
  · rename_i heq
    exact absurd heq (List.cons_ne_nil c rest)
  · rename_i heq
    exact absurd (List.head_eq_of_cons_eq heq) hc
  · rename_i heq
    obtain ⟨h1, h2⟩ := List.cons.inj heq
    subst h1
    subst h2
    rfl

lemma unquoteChars_id {cs : List Char} (h : ∀ c ∈ cs, c ≠ '%') : unquoteChars cs = cs := by
  induction cs with
  | nil => rfl
  | cons c rest ih =>
    rw [unquoteChars_cons_ne rest (h c (List.mem_cons_self c rest))]
    exact congrArg (c :: ·) (ih fun d hd => h d (List.mem_cons_of_mem c hd))

lemma unquotePlus_id {s : String} (h : ∀ c ∈ s.data, c ≠ '%' ∧ c ≠ '+') :
    unquotePlus s = s := by
  unfold unquotePlus
  rw [plusToSpace_id (fun c hc => (h c hc).2), unquoteChars_id (fun c hc => (h c hc).1)]

lemma pickMin_cases (f c : Nat) (kf kc : ℚ) :
    pickMin f c kf kc = f ∨ pickMin f c kf kc = c := by
  unfold pickMin
  split
  · exact Or.inl rfl
  · exact Or.inr rfl

lemma roundAspect1_cases (a : ℚ) (y : Nat) :
    roundAspect1 a y = max (Int.toNat (Int.floor ((y : ℚ) * a))) 1 ∨
    roundAspect1 a y = max (Int.toNat (Int.ceil ((y : ℚ) * a))) 1 := by
  simp only [roundAspect1]
  rcases pickMin_cases (Int.floor ((y : ℚ) * a)).toNat (Int.ceil ((y : ℚ) * a)).toNat
    |a - ((Int.floor ((y : ℚ) * a)).toNat : ℚ) / (y : ℚ)|
    |a - ((Int.ceil ((y : ℚ) * a)).toNat : ℚ) / (y : ℚ)| with hp | hp <;> rw [hp]
  · exact Or.inl rfl
  · exact Or.inr rfl

lemma roundAspect2_cases (a : ℚ) (x : Nat) :
    roundAspect2 a x = max (Int.toNat (Int.floor ((x : ℚ) / a))) 1 ∨
    roundAspect2 a x = max (Int.toNat (Int.ceil ((x : ℚ) / a))) 1 := by
  simp only [roundAspect2]
  rcases pickMin_cases (Int.floor ((x : ℚ) / a)).toNat (Int.ceil ((x : ℚ) / a)).toNat
    (if (Int.floor ((x : ℚ) / a)).toNat = 0 then 0
     else |a - (x : ℚ) / ((Int.floor ((x : ℚ) / a)).toNat : ℚ)|)
    (if (Int.ceil ((x : ℚ) / a)).toNat = 0 then 0
     else |a - (x : ℚ) / ((Int.ceil ((x : ℚ) / a)).toNat : ℚ)|)
    with hp | hp <;> rw [hp]
  · exact Or.inl rfl
  · exact Or.inr rfl

lemma roundAspect1_le {a : ℚ} {y n : Nat} (hn : 1 ≤ n) (h : (y : ℚ) * a ≤ (n : ℚ)) :
    roundAspect1 a y ≤ n := by
  have hc : (Int.ceil ((y : ℚ) * a)).toNat ≤ n := by
    rw [Int.toNat_le]
    exact Int.ceil_le.mpr h
  have hf : (Int.floor ((y : ℚ) * a)).toNat ≤ n :=
    le_trans (Int.toNat_le_toNat (Int.floor_le_ceil _)) hc
  rcases roundAspect1_cases a y with hr | hr <;> rw [hr] <;> exact max_le (by assumption) hn

lemma roundAspect2_le {a : ℚ} {x n : Nat} (hn : 1 ≤ n) (h : (x : ℚ) / a ≤ (n : ℚ)) :
    roundAspect2 a x ≤ n := by
  have hc : (Int.ceil ((x : ℚ) / a)).toNat ≤ n := by
    rw [Int.toNat_le]
    exact Int.ceil_le.mpr h
  have hf : (Int.floor ((x : ℚ) / a)).toNat ≤ n :=
    le_trans (Int.toNat_le_toNat (Int.floor_le_ceil _)) hc
  rcases roundAspect2_cases a x with hr | hr <;> rw [hr] <;> exact max_le (by assumption) hn

lemma pilThumbnail_spec (w h tw th : Nat) (hw : 1 ≤ w) (hh : 1 ≤ h)
    (htw : 1 ≤ tw) (hth : 1 ≤ th) :
    (pilThumbnail w h tw th).1 ≤ tw ∧ (pilThumbnail w h tw th).2 ≤ th ∧
    (w ≤ tw ∧ h ≤ th → pilThumbnail w h tw th = (w, h)) ∧
    (¬(w ≤ tw ∧ h ≤ th) →
      ((pilThumbnail w h tw th).2 = th ∧
        ((pilThumbnail w h tw th).1 =
            max (Int.toNat (Int.floor ((w : ℚ) * ((th : ℚ) / (h : ℚ))))) 1 ∨
         (pilThumbnail w h tw th).1 =
            max (Int.toNat (Int.ceil ((w : ℚ) * ((th : ℚ) / (h : ℚ))))) 1)) ∨
      ((pilThumbnail w h tw th).1 = tw ∧
        ((pilThumbnail w h tw th).2 =
            max (Int.toNat (Int.floor ((h : ℚ) * ((tw : ℚ) / (w : ℚ))))) 1 ∨
         (pilThumbnail w h tw th).2 =
            max (Int.toNat (Int.ceil ((h : ℚ) * ((tw : ℚ) / (w : ℚ))))) 1))) := by
  have hw0 : (0 : ℚ) < (w : ℚ) := by exact_mod_cast hw
  have hh0 : (0 : ℚ) < (h : ℚ) := by exact_mod_cast hh
  have hth0 : (0 : ℚ) < (th : ℚ) := by exact_mod_cast hth
  have ha0 : (0 : ℚ) < (w : ℚ) / (h : ℚ) := div_pos hw0 hh0
  by_cases hfit : tw ≥ w ∧ th ≥ h
  · refine ⟨?_, ?_, ?_, ?_⟩
    · simp [pilThumbnail, hfit]
    · simp [pilThumbnail, hfit]
    · intro _
      simp [pilThumbnail, hfit]
    · intro hcon
      exact absurd ⟨hfit.1, hfit.2⟩ hcon
  · by_cases hbr : ((tw : ℚ) / (th : ℚ) ≥ (w : ℚ) / (h : ℚ))
    · have hq : (th : ℚ) * ((w : ℚ) / (h : ℚ)) ≤ (tw : ℚ) := by
        rw [mul_comm]
        exact (le_div_iff₀ hth0).mp hbr
      have hkey : (th : ℚ) * ((w : ℚ) / (h : ℚ)) = (w : ℚ) * ((th : ℚ) / (h : ℚ)) := by ring
      have hres : pilThumbnail w h tw th = (roundAspect1 ((w : ℚ) / (h : ℚ)) th, th) := by
        simp [pilThumbnail, hfit, hbr]
      refine ⟨?_, ?_, ?_, ?_⟩
      · rw [hres]
        exact roundAspect1_le htw hq
      · rw [hres]
      · intro hc
        exact absurd hc hfit
      · intro _
        left
        rw [hres]
        refine ⟨rfl, ?_⟩
        have hcs := roundAspect1_cases ((w : ℚ) / (h : ℚ)) th
        rwa [hkey] at hcs
    · have hlt : (tw : ℚ) < (w : ℚ) / (h : ℚ) * (th : ℚ) :=
        (div_lt_iff₀ hth0).mp (lt_of_not_ge hbr)
      have hq : (tw : ℚ) / ((w : ℚ) / (h : ℚ)) ≤ (th : ℚ) := by
        refine le_of_lt ?_
        rw [div_lt_iff₀ ha0]
        calc (tw : ℚ) < (w : ℚ) / (h : ℚ) * (th : ℚ) := hlt
        _ = (th : ℚ) * ((w : ℚ) / (h : ℚ)) := by ring
      have hkey : (tw : ℚ) / ((w : ℚ) / (h : ℚ)) = (h : ℚ) * ((tw : ℚ) / (w : ℚ)) := by
        field_simp
        ring
      have hres : pilThumbnail w h tw th = (tw, roundAspect2 ((w : ℚ) / (h : ℚ)) tw) := by
        simp [pilThumbnail, hfit, hbr]
      refine ⟨?_, ?_, ?_, ?_⟩
      · rw [hres]
      · rw [hres]
        exact roundAspect2_le hth hq
      · intro hc
        exact absurd hc hfit
      · intro _
        right
        rw [hres]
        refine ⟨rfl, ?_⟩
        have hcs := roundAspect2_cases ((w : ℚ) / (h : ℚ)) tw
        rwa [hkey] at hcs

lemma encV_optStrV (x : Option String) : encV (optStrV x) = .ok (optStrV x) := by
  cases x <;> rfl

lemma encD_thumbsVal (l : List (String × String)) : encD (thumbsVal l) = .ok (thumbsVal l) := by
  induction l with
  | nil => rfl
  | cons p rest ih =>
    cases p with
    | mk k v => simp [thumbsVal, encD, encV, ih, Except.map]

lemma buildItem_enc (ev : PipeState) (imageId : String) (t : Int) (c : PyVal)
    (h : encV (buildItem ev imageId t) = .ok c) :
    PyVal.find? c "ImageKey" = some (.str imageId) ∧
    PyVal.find? c "created_at" = some (.dfin (t : ℚ)) ∧
    PyVal.find? c "updated_at" = some (.dfin (t : ℚ)) := by
  rcases hmd : encV (ev.extracted_metadata.getD (.dict .nil)) with e | mv
  · exfalso
    simp [buildItem, PyDict.ofList, encV, encD, encV_optStrV, encD_thumbsVal, hmd,
      Except.map] at h
  · simp only [buildItem, PyDict.ofList] at h
    simp [encV, encD, encV_optStrV, encD_thumbsVal, hmd, Except.map] at h
    subst h
    simp [PyVal.find?, PyDict.find?]
lemma dput_dput (s : DStore) (k : String) (v1 v2 : PyVal) :
    dput (dput s k v1) k v2 = dput s k v2 := by
  funext k2
  unfold dput
  by_cases h : k2 = k <;> simp [h]

lemma dput_self (s : DStore) (k : String) (v : PyVal) : dput s k v k = some v := by
  unfold dput
  simp

lemma validate_ok {e : TriggerEvent} {st : PipeState} (h : validate e = .ok st) :
    ∃ b k, e.bucketName = some b ∧ e.objectKey = some k ∧
      st = { s3_bucket := some b, s3_key := some (unquotePlus k),
             image_type := some ((pySplitext (pyLower (unquotePlus k))).2),
             validation_status := some "SUCCESS" } := by
  unfold validate at h
  dsimp only at h
  split at h
  · exact Except.noConfusion h
  · split at h
    next b k hb hk =>
      split at h
      · exact ⟨b, k, hb, hk, (Except.ok.inj h).symm⟩
      · exact Except.noConfusion h
    next => exact Except.noConfusion h

lemma generateThumbnails_ok {tb : String} {sizes : List (Nat × Nat)} {ev : PipeState}
    {img : SrcImage} {res : ThumbResult}
    (h : generateThumbnails (some tb) sizes ev (.ok img) = .ok res) :
    ∃ b k, ev.s3_bucket = some b ∧ ev.s3_key = some k ∧
      res.puts = sizes.map (fun wh =>
        { bucket := tb,
          key := thumbKey ((pySplitext (pyBasename (unquotePlus k))).1) wh.1 wh.2
                   (normalizeFormat img.format),
          width := (pilThumbnail img.width img.height wh.1 wh.2).1,
          height := (pilThumbnail img.width img.height wh.1 wh.2).2 : Put }) ∧
      res.out = { ev with
        thumbnails := some (sizes.map (fun wh =>
          (sizeLabel wh.1 wh.2,
           s3Url tb (thumbKey ((pySplitext (pyBasename (unquotePlus k))).1) wh.1 wh.2
             (normalizeFormat img.format))))),
        thumbnail_generation_status := some "SUCCESS" } := by
  unfold generateThumbnails at h
  dsimp only at h
  split at h
  next b k hb hk =>
    refine ⟨b, k, hb, hk, ?_, ?_⟩
    · rw [← Except.ok.inj h]
    · rw [← Except.ok.inj h]
  next => exact Except.noConfusion h

lemma extractMetadata_ok {useRek : Bool} {ev : PipeState} {fetch : Except String FetchedImage}
    {rek : Except String (List (String × ℚ))} {out : PipeState}
    (h : extractMetadata useRek ev fetch rek = .ok out) :
    out.s3_key = ev.s3_key ∧ out.s3_bucket = ev.s3_bucket ∧
    out.metadata_extraction_status = some "SUCCESS" := by
  unfold extractMetadata at h
  dsimp only at h
  split at h
  next b k hb hk =>
    split at h
    · exact Except.noConfusion h
    · rw [← Except.ok.inj h]
      exact ⟨rfl, rfl, rfl⟩
  next => exact Except.noConfusion h

lemma storeResults_ok {ev : PipeState} {now : Int} {store s2 : DStore} {out : PipeState}
    (h : storeResults ev now store = .ok (s2, out)) :
    ∃ k c, ev.s3_key = some k ∧
      encV (buildItem ev (unquotePlus k) now) = .ok c ∧
      hasFloatV c = false ∧
      s2 = dput store (unquotePlus k) c ∧
      out = { ev with dynamodb_storage_status := some "SUCCESS",
                      overall_processing_status := some "COMPLETED" } := by
  unfold storeResults at h
  dsimp only at h
  split at h
  next => exact Except.noConfusion h
  next k hk =>
    split at h
    next e hE => exact Except.noConfusion h
    next c hE =>
      split at h
      · exact Except.noConfusion h
      next hF =>
        have hp := Except.ok.inj h
        refine ⟨k, c, hk, hE, by simpa using hF, ?_, ?_⟩
        · exact (congrArg Prod.fst hp).symm
        · exact (congrArg Prod.snd hp).symm
/-- C1 (code bug): a non-finite float anywhere in the accumulated state is NOT
persisted as its string sentinel — the `json.dumps`/`json.loads` round-trip
hands the float back unchanged (`DecimalEncoder.default` is never invoked for
floats), and the store's serialiser then rejects the float, crashing the
persistence path instead of storing the string. -/
theorem C1_nonfinite_float_crashes_persistence :
    storeResults { s3_key := some "uploads/cat.jpg",
                   extracted_metadata := some (.dict (.cons "score" .fnan .nil)) }
        5 emptyStore = .error .dynamoFloatError ∧
    encV .fnan = .ok .fnan ∧
    encV .finf = .ok .finf ∧
    encV .fninf = .ok .fninf := ⟨rfl, rfl, rfl, rfl⟩

/-- C2 counterexample: the flat trigger shape
`{s3_bucket: "b", s3_key: "uploads/cat.jpg"}` is rejected with
`MalformedTrigger` rather than accepted with the claimed SUCCESS output. -/
theorem C2_flat_trigger_rejected :
    validate { s3_bucket := some "b", s3_key := some "uploads/cat.jpg" } =
      .error .malformedTrigger ∧
    validate { s3_bucket := some "b", s3_key := some "uploads/cat.jpg" } ≠
      .ok { s3_bucket := some "b", s3_key := some "uploads/cat.jpg",
            image_type := some ".jpg", validation_status := some "SUCCESS" } := by
  constructor
  · rfl
  · intro hcon
    have h1 : validate { s3_bucket := some "b", s3_key := some "uploads/cat.jpg" } =
        .error .malformedTrigger := rfl
    rw [h1] at hcon
    exact Except.noConfusion hcon

/-- C2 amended: the Validator accepts only the nested
`{bucket:{name}, object:{key}}` trigger shape, emitting the claimed SUCCESS
state for it (independently of any flat fields present), and fails with
`MalformedTrigger` whenever the nested fields are missing or empty — in
particular on the purely flat shape. -/
theorem C2_nested_shape_only :
    (∀ sb sk : Option String,
      validate { s3_bucket := sb, s3_key := sk, bucketName := some "b",
                 objectKey := some "uploads/cat.jpg" } =
        .ok { s3_bucket := some "b", s3_key := some "uploads/cat.jpg",
              image_type := some ".jpg", validation_status := some "SUCCESS" }) ∧
    (∀ e : TriggerEvent, pyFalsy e.bucketName ∨ pyFalsy e.objectKey →
      validate e = .error .malformedTrigger) := by
  constructor
  · intro sb sk
    rfl
  · intro e hfalsy
    unfold validate
    dsimp only
    rw [if_pos hfalsy]

/-- C2 witness -/
theorem C2_nested_shape_only_witness :
    validate { s3_bucket := some "x", s3_key := some "y", bucketName := some "b",
               objectKey := some "uploads/cat.jpg" } =
      .ok { s3_bucket := some "b", s3_key := some "uploads/cat.jpg",
            image_type := some ".jpg", validation_status := some "SUCCESS" } ∧
    validate { s3_bucket := some "b", s3_key := some "uploads/cat.jpg" } =
      .error .malformedTrigger :=
  ⟨C2_nested_shape_only.1 (some "x") (some "y"),
   C2_nested_shape_only.2 { s3_bucket := some "b", s3_key := some "uploads/cat.jpg" }
     (Or.inl trivial)⟩

/-- C8: for every trigger with non-empty nested container and object
identifiers, if the extension of the decoded, lower-cased object identifier is
in the supported set the Validator emits the state with the lower-cased
extension as `image_type` and `validation_status = SUCCESS`; otherwise it
fails with `UnsupportedFormat` naming the offending extension and the
supported set, emitting no state. -/
theorem C8_extension_allowlist (e : TriggerEvent) (b k : String)
    (hb : e.bucketName = some b) (hbne : b ≠ "")
    (hk : e.objectKey = some k) (hkne : k ≠ "") :
    ((pySplitext (pyLower (unquotePlus k))).2 ∈ SUPPORTED_IMAGE_TYPES →
       validate e = .ok { s3_bucket := some b, s3_key := some (unquotePlus k),
                          image_type := some ((pySplitext (pyLower (unquotePlus k))).2),
                          validation_status := some "SUCCESS" }) ∧
    ((pySplitext (pyLower (unquotePlus k))).2 ∉ SUPPORTED_IMAGE_TYPES →
       validate e = .error
         (.unsupportedFormat ((pySplitext (pyLower (unquotePlus k))).2)
           SUPPORTED_IMAGE_TYPES)) := by
  constructor
  · intro hmem
    simp [validate, hb, hk, pyFalsy, hbne, hkne, hmem]
  · intro hmem
    simp [validate, hb, hk, pyFalsy, hbne, hkne, hmem]

/-- C8 witness: the theorem instantiated at the concrete trigger
`{bucket:{name:"b"}, object:{key:"uploads/cat.jpg"}}`. -/
theorem C8_extension_allowlist_witness :
    ((pySplitext (pyLower (unquotePlus "uploads/cat.jpg"))).2 ∈ SUPPORTED_IMAGE_TYPES →
       validate { bucketName := some "b", objectKey := some "uploads/cat.jpg" } =
         .ok { s3_bucket := some "b", s3_key := some (unquotePlus "uploads/cat.jpg"),
               image_type := some ((pySplitext (pyLower (unquotePlus "uploads/cat.jpg"))).2),
               validation_status := some "SUCCESS" }) ∧
    ((pySplitext (pyLower (unquotePlus "uploads/cat.jpg"))).2 ∉ SUPPORTED_IMAGE_TYPES →
       validate { bucketName := some "b", objectKey := some "uploads/cat.jpg" } =
         .error (.unsupportedFormat ((pySplitext (pyLower (unquotePlus "uploads/cat.jpg"))).2)
           SUPPORTED_IMAGE_TYPES)) :=
  C8_extension_allowlist
    { bucketName := some "b", objectKey := some "uploads/cat.jpg" }
    "b" "uploads/cat.jpg" rfl (by decide) rfl (by decide)

/-- C10: no stage ever emits a state carrying a FAILED status flag — whenever
a stage returns a state at all, its own status field is "SUCCESS" (and the
persister additionally sets `overall_processing_status = COMPLETED`); a stage
that cannot complete raises and returns no state. -/
theorem C10_no_failed_status_emitted :
    (∀ e out, validate e = .ok out → out.validation_status = some "SUCCESS") ∧
    (∀ tb sizes ev fetch res, generateThumbnails tb sizes ev fetch = .ok res →
        res.out.thumbnail_generation_status = some "SUCCESS") ∧
    (∀ useRek ev fetch rek out, extractMetadata useRek ev fetch rek = .ok out →
        out.metadata_extraction_status = some "SUCCESS") ∧
    (∀ ev now store res, storeResults ev now store = .ok res →
        res.2.dynamodb_storage_status = some "SUCCESS" ∧
        res.2.overall_processing_status = some "COMPLETED") := by
  refine ⟨?_, ?_, ?_, ?_⟩
  · intro e out h
    obtain ⟨b, k, _, _, hst⟩ := validate_ok h
    rw [hst]
  · intro tb sizes ev fetch res h
    cases tb with
    | none =>
      unfold generateThumbnails at h
      exact Except.noConfusion h
    | some tbv =>
      cases fetch with
      | error e =>
        unfold generateThumbnails at h
        dsimp only at h
        split at h
        · exact Except.noConfusion h
        · exact Except.noConfusion h
      | ok img =>
        obtain ⟨b, k, _, _, _, hout⟩ := generateThumbnails_ok h
        rw [hout]
  · intro useRek ev fetch rek out h
    exact (extractMetadata_ok h).2.2
  · intro ev now store res h
    cases res with
    | mk s2 out =>
      obtain ⟨k, c, _, _, _, _, hout⟩ := storeResults_ok h
      rw [hout]
      exact ⟨rfl, rfl⟩

/-- C10 witness: each stage evaluated at a concrete successful input, with
its emitted status field checked to be SUCCESS. -/
theorem C10_no_failed_status_emitted_witness :
    (∃ out, validate { bucketName := some "b", objectKey := some "uploads/cat.jpg" } = .ok out ∧
      out.validation_status = some "SUCCESS") ∧
    (∃ res, generateThumbnails (some "tb") [] { s3_bucket := some "b", s3_key := some "cat.jpg" }
        (.ok {}) = .ok res ∧ res.out.thumbnail_generation_status = some "SUCCESS") ∧
    (∃ out, extractMetadata true { s3_bucket := some "b", s3_key := some "cat.jpg" }
        (.ok {}) (.error "rek down") = .ok out ∧
      out.metadata_extraction_status = some "SUCCESS") ∧
    (∃ res, storeResults { s3_key := some "cat.jpg" } 0 emptyStore = .ok res ∧
      res.2.dynamodb_storage_status = some "SUCCESS" ∧
      res.2.overall_processing_status = some "COMPLETED") :=
  ⟨⟨_, rfl, C10_no_failed_status_emitted.1
      { bucketName := some "b", objectKey := some "uploads/cat.jpg" } _ rfl⟩,
   ⟨_, rfl, C10_no_failed_status_emitted.2.1 (some "tb") []
      { s3_bucket := some "b", s3_key := some "cat.jpg" } (.ok {}) _ rfl⟩,
   ⟨_, rfl, C10_no_failed_status_emitted.2.2.1 true
      { s3_bucket := some "b", s3_key := some "cat.jpg" } (.ok {}) (.error "rek down") _ rfl⟩,
   ⟨_, rfl, C10_no_failed_status_emitted.2.2.2 { s3_key := some "cat.jpg" } 0 emptyStore _ rfl⟩⟩
/-- C6 counterexample: the StatusResolver does not prepend the ingestion
prefix — with the record present under `uploads/missing.png`, a query for
`missing.png` still answers 404, whereas the claimed prefix reconstruction
would have found the record. -/
theorem C6_no_prefix_reconstruction :
    statusCheck (some "T") (dput emptyStore "uploads/missing.png" (.dict .nil))
        { pathParameters := some (some "missing.png") } =
      { statusCode := 404, body := .notFoundBody } ∧
    dput emptyStore "uploads/missing.png" (.dict .nil) "uploads/missing.png" =
      some (.dict .nil) := ⟨rfl, rfl⟩

/-- C6 amended: the StatusResolver uses the supplied image identifier
verbatim (no separator stripping, no prefix) as the single-key lookup; when
the key is absent it returns 404 with the not-found body — never a 500 — and
when present it returns 200 with the item. -/
theorem C6_verbatim_lookup (tn : String) (store : DStore) (ev : ApiEvent) (id : String)
    (hpp : ev.pathParameters = some (some id)) :
    (store id = none →
       statusCheck (some tn) store ev = { statusCode := 404, body := .notFoundBody }) ∧
    (∀ v, store id = some v →
       statusCheck (some tn) store ev = { statusCode := 200, body := .itemBody v }) := by
  constructor
  · intro habs
    simp [statusCheck, hpp, habs]
  · intro v hv
    simp [statusCheck, hpp, hv]

/-- C6 witness: querying `missing.png` against an empty store answers 404
with the not-found body, not 500. -/
theorem C6_verbatim_lookup_witness :
    (emptyStore "missing.png" = none →
       statusCheck (some "T") emptyStore { pathParameters := some (some "missing.png") } =
         { statusCode := 404, body := .notFoundBody }) ∧
    (∀ v, emptyStore "missing.png" = some v →
       statusCheck (some "T") emptyStore { pathParameters := some (some "missing.png") } =
         { statusCode := 200, body := .itemBody v }) :=
  C6_verbatim_lookup "T" emptyStore { pathParameters := some (some "missing.png") }
    "missing.png" rfl

/-- C7: persisting the same state twice is an unconditional upsert keyed by
the decoded source object identifier: the two writes use the same key, the
resulting table equals the one produced by the second write alone (one stored
item, not two), and the stored item carries `created_at` and `updated_at`
both taken from the second write. -/
theorem C7_upsert_idempotent (ev : PipeState) (t1 t2 : Int) (s0 s1 s2 : DStore)
    (o1 o2 : PipeState)
    (h1 : storeResults ev t1 s0 = .ok (s1, o1))
    (h2 : storeResults ev t2 s1 = .ok (s2, o2)) :
    ∃ k c2, ev.s3_key = some k ∧
      encV (buildItem ev (unquotePlus k) t2) = .ok c2 ∧
      s2 = dput s0 (unquotePlus k) c2 ∧
      s2 (unquotePlus k) = some c2 ∧
      PyVal.find? c2 "ImageKey" = some (.str (unquotePlus k)) ∧
      PyVal.find? c2 "created_at" = some (.dfin (t2 : ℚ)) ∧
      PyVal.find? c2 "updated_at" = some (.dfin (t2 : ℚ)) := by
  obtain ⟨k1, c1, hk1, hE1, hF1, hs1, ho1⟩ := storeResults_ok h1
  obtain ⟨k2, c2, hk2, hE2, hF2, hs2, ho2⟩ := storeResults_ok h2
  have hkk : k2 = k1 := by
    rw [hk1] at hk2
    exact (Option.some.inj hk2).symm
  subst hkk
  obtain ⟨hik, hcr, hup⟩ := buildItem_enc ev (unquotePlus k2) t2 c2 hE2
  refine ⟨k2, c2, hk2, hE2, ?_, ?_, hik, hcr, hup⟩
  · rw [hs2, hs1, dput_dput]
  · rw [hs2, dput_self]

/-- C7 witness: the theorem instantiated at a concrete state persisted at
times 1 and then 2 over the empty table. -/
theorem C7_upsert_idempotent_witness :
    ∃ s1 o1 s2 o2,
      storeResults { s3_key := some "uploads/cat.jpg" } 1 emptyStore = .ok (s1, o1) ∧
      storeResults { s3_key := some "uploads/cat.jpg" } 2 s1 = .ok (s2, o2) ∧
      ∃ k c2, ({ s3_key := some "uploads/cat.jpg" } : PipeState).s3_key = some k ∧
        encV (buildItem { s3_key := some "uploads/cat.jpg" } (unquotePlus k) 2) = .ok c2 ∧
        s2 = dput emptyStore (unquotePlus k) c2 ∧
        s2 (unquotePlus k) = some c2 ∧
        PyVal.find? c2 "ImageKey" = some (.str (unquotePlus k)) ∧
        PyVal.find? c2 "created_at" = some (.dfin ((2 : Int) : ℚ)) ∧
        PyVal.find? c2 "updated_at" = some (.dfin ((2 : Int) : ℚ)) :=
  ⟨_, _, _, _, rfl, rfl,
   C7_upsert_idempotent { s3_key := some "uploads/cat.jpg" } 1 2 emptyStore _ _ _ _ rfl rfl⟩
lemma find?_append_of_some : ∀ (d : PyDict) {k2 : String} {v2 : PyVal} (k : String)
    (v : PyVal), d.find? k2 = some v2 → (d.append k v).find? k2 = some v2
  | .nil, _, _, _, _, h => by simp [PyDict.find?] at h
  | .cons k0 v0 rest, k2, v2, k, v, h => by
    simp only [PyDict.append, PyDict.find?] at h ⊢
    by_cases he : k2 = k0
    · simpa [he] using h
    · rw [if_neg he] at h ⊢
      exact find?_append_of_some rest k v h

/-- C9: when intrinsic extraction succeeds and the enabled label-detection
call fails, the MetadataExtractor records the failure string in the metadata
record (`rekognition_error`) instead of failing, still emitting
`metadata_extraction_status = SUCCESS`; and for every label outcome the
emitted metadata contains the six intrinsic fields. -/
theorem C9_label_failure_is_nonfatal (ev : PipeState) (b k : String)
    (hb : ev.s3_bucket = some b) (hk : ev.s3_key = some k) (fi : FetchedImage) :
    (∀ e : String, extractMetadata true ev (.ok fi) (.error e) =
       .ok { ev with
             extracted_metadata := some (.dict ((intrinsicMeta (unquotePlus k) fi).append
                 "rekognition_error" (.str e))),
             metadata_extraction_status := some "SUCCESS" }) ∧
    (∀ rek out, extractMetadata true ev (.ok fi) rek = .ok out →
       out.metadata_extraction_status = some "SUCCESS" ∧
       ∃ d, out.extracted_metadata = some (.dict d) ∧
         d.find? "filename" = some (.str (pyBasename (unquotePlus k))) ∧
         d.find? "filesize_bytes" = some (.int fi.dataLen) ∧
         d.find? "format" = some (formatVal fi.format) ∧
         d.find? "width_pixels" = some (.int fi.width) ∧
         d.find? "height_pixels" = some (.int fi.height) ∧
         d.find? "mode" = some (.str fi.mode)) := by
  constructor
  · intro e
    simp [extractMetadata, hb, hk]
  · intro rek out h
    simp only [extractMetadata, hb, hk] at h
    cases rek with
    | error e =>
      rw [← Except.ok.inj h]
      refine ⟨rfl, _, rfl, ?_, ?_, ?_, ?_, ?_, ?_⟩ <;>
        exact find?_append_of_some _ _ _ (by simp [intrinsicMeta, PyDict.find?])
    | ok labels =>
      rw [← Except.ok.inj h]
      refine ⟨rfl, _, rfl, ?_, ?_, ?_, ?_, ?_, ?_⟩ <;>
        exact find?_append_of_some _ _ _ (by simp [intrinsicMeta, PyDict.find?])

/-- C9 witness: the theorem instantiated at a concrete event and fetched
image. -/
theorem C9_label_failure_is_nonfatal_witness :
    (∀ e : String,
       extractMetadata true { s3_bucket := some "b", s3_key := some "uploads/cat.jpg" }
           (.ok {}) (.error e) =
         .ok { s3_bucket := some "b", s3_key := some "uploads/cat.jpg",
               extracted_metadata := some (.dict ((intrinsicMeta (unquotePlus "uploads/cat.jpg") {}).append
                   "rekognition_error" (.str e))),
               metadata_extraction_status := some "SUCCESS" }) ∧
    (∀ rek out,
       extractMetadata true { s3_bucket := some "b", s3_key := some "uploads/cat.jpg" }
           (.ok {}) rek = .ok out →
       out.metadata_extraction_status = some "SUCCESS" ∧
       ∃ d, out.extracted_metadata = some (.dict d) ∧
         d.find? "filename" = some (.str (pyBasename (unquotePlus "uploads/cat.jpg"))) ∧
         d.find? "filesize_bytes" = some (.int (FetchedImage.dataLen {})) ∧
         d.find? "format" = some (formatVal (FetchedImage.format {})) ∧
         d.find? "width_pixels" = some (.int (FetchedImage.width {})) ∧
         d.find? "height_pixels" = some (.int (FetchedImage.height {})) ∧
         d.find? "mode" = some (.str (FetchedImage.mode {}))) :=
  C9_label_failure_is_nonfatal
    { s3_bucket := some "b", s3_key := some "uploads/cat.jpg" } "b" "uploads/cat.jpg"
    rfl rfl {}
lemma generateThumbnails_preserves_key {tb : Option String} {sizes : List (Nat × Nat)}
    {ev : PipeState} {fetch : Except String SrcImage} {res : ThumbResult}
    (h : generateThumbnails tb sizes ev fetch = .ok res) :
    res.out.s3_key = ev.s3_key := by
  cases tb with
  | none =>
    unfold generateThumbnails at h
    exact Except.noConfusion h
  | some tbv =>
    cases fetch with
    | error e =>
      unfold generateThumbnails at h
      dsimp only at h
      split at h <;> exact Except.noConfusion h
    | ok img =>
      obtain ⟨b, k, hb, hk, _, hout⟩ := generateThumbnails_ok h
      rw [hout]

/-- C3 counterexample: for the raw object identifier `a%2Bb.jpg` the
once-decoded form is `a+b.jpg`, yet the pipeline persists the record under
`a b.jpg` — the persister re-applies `unquote_plus` to the already-decoded
key, so the storage key is not the once-decoded identifier. -/
theorem C3_key_decoded_again_downstream :
    ∃ s2 out,
      runPipeline { bucketName := some "b", objectKey := some "a%2Bb.jpg" }
          (some "tb") [] (.ok {}) false (.ok {}) (.error "off") 0 emptyStore =
        .ok (s2, out) ∧
      unquotePlus "a%2Bb.jpg" = "a+b.jpg" ∧
      s2 "a+b.jpg" = none ∧
      (s2 "a b.jpg").isSome = true := by
  refine ⟨_, _, rfl, rfl, rfl, rfl⟩

/-- C3 amended: the Validator decodes the object identifier once, but the
persister decodes it again, so the stored record always sits under the
twice-decoded identifier; whenever the once-decoded form contains no percent
sign and no plus, this coincides with the once-decoded identifier. -/
theorem C3_storage_key_is_double_decoded (trigger : TriggerEvent) (tb : Option String)
    (sizes : List (Nat × Nat)) (fetchT : Except String SrcImage) (useRek : Bool)
    (fetchM : Except String FetchedImage) (rek : Except String (List (String × ℚ)))
    (now : Int) (store s2 : DStore) (out : PipeState)
    (h : runPipeline trigger tb sizes fetchT useRek fetchM rek now store = .ok (s2, out)) :
    ∃ rawk, trigger.objectKey = some rawk ∧
      (∃ item, s2 (unquotePlus (unquotePlus rawk)) = some item) ∧
      ((∀ c ∈ (unquotePlus rawk).data, c ≠ '%' ∧ c ≠ '+') →
        unquotePlus (unquotePlus rawk) = unquotePlus rawk) := by
  unfold runPipeline at h
  rcases hv : validate trigger with e | s1
  · rw [hv] at h
    exact Except.noConfusion h
  · rw [hv] at h
    dsimp only at h
    rcases ht : generateThumbnails tb sizes s1 fetchT with e | tr
    · rw [ht] at h
      exact Except.noConfusion h
    · rw [ht] at h
      dsimp only at h
      rcases hm : extractMetadata useRek tr.out fetchM rek with e | s3
      · rw [hm] at h
        exact Except.noConfusion h
      · rw [hm] at h
        dsimp only at h
        obtain ⟨b, rawk, hbt, hkt, hs1⟩ := validate_ok hv
        obtain ⟨k, c, hsk, hE, hF, hstore, hout⟩ := storeResults_ok h
        have hkey : s3.s3_key = some (unquotePlus rawk) := by
          rw [(extractMetadata_ok hm).1, generateThumbnails_preserves_key ht, hs1]
        have hkeq : k = unquotePlus rawk := by
          rw [hsk] at hkey
          exact Option.some.inj hkey
        refine ⟨rawk, hkt, ⟨c, ?_⟩, fun hcs => unquotePlus_id hcs⟩
        rw [hstore, hkeq, dput_self]

/-- C3 witness: the amended theorem applied to a concrete full pipeline run
on the key `cat.jpg`. -/
theorem C3_storage_key_is_double_decoded_witness :
    ∃ s2 out,
      runPipeline { bucketName := some "b", objectKey := some "cat.jpg" }
          (some "tb") [] (.ok {}) false (.ok {}) (.error "off") 0 emptyStore =
        .ok (s2, out) ∧
      ∃ rawk, ({ bucketName := some "b", objectKey := some "cat.jpg" } :
          TriggerEvent).objectKey = some rawk ∧
        (∃ item, s2 (unquotePlus (unquotePlus rawk)) = some item) ∧
        ((∀ c ∈ (unquotePlus rawk).data, c ≠ '%' ∧ c ≠ '+') →
          unquotePlus (unquotePlus rawk) = unquotePlus rawk) :=
  ⟨_, _, rfl,
   C3_storage_key_is_double_decoded { bucketName := some "b", objectKey := some "cat.jpg" }
     (some "tb") [] (.ok {}) false (.ok {}) (.error "off") 0 emptyStore _ _ rfl⟩
/-- C4 counterexample: an 800 by 600 source in a 1600 by 1200 box has
min-ratio 2, but `Image.thumbnail` returns the source unchanged — the claimed
proportional upscaling never happens. -/
theorem C4_no_upscaling :
    pilThumbnail 800 600 1600 1200 = (800, 600) ∧
    min ((1600 : ℚ) / 800) ((1200 : ℚ) / 600) = 2 ∧
    (800 : ℚ) * 2 ≠ 800 := by
  refine ⟨rfl, by norm_num, by norm_num⟩

/-- C4 amended: every derived thumbnail's dimensions are those of
`Image.thumbnail`, which fit within the target box; a source already within
the box is returned unscaled (no upscaling); otherwise one dimension equals
the box's and the other is the source dimension scaled by
min(targetW/srcW, targetH/srcH), rounded to its floor or ceiling (one pixel
of rounding). -/
theorem C4_fit_within_box (tb : String) (sizes : List (Nat × Nat)) (ev : PipeState)
    (img : SrcImage) (res : ThumbResult)
    (h : generateThumbnails (some tb) sizes ev (.ok img) = .ok res)
    (hw : 1 ≤ img.width) (hh : 1 ≤ img.height) :
    res.puts.length = sizes.length ∧
    (∀ i (hi : i < sizes.length) (hp : i < res.puts.length),
      ((res.puts.get ⟨i, hp⟩).width, (res.puts.get ⟨i, hp⟩).height) =
        pilThumbnail img.width img.height (sizes.get ⟨i, hi⟩).1 (sizes.get ⟨i, hi⟩).2) ∧
    (∀ tw th, 1 ≤ tw → 1 ≤ th →
      (pilThumbnail img.width img.height tw th).1 ≤ tw ∧
      (pilThumbnail img.width img.height tw th).2 ≤ th ∧
      (img.width ≤ tw ∧ img.height ≤ th →
        pilThumbnail img.width img.height tw th = (img.width, img.height)) ∧
      (¬(img.width ≤ tw ∧ img.height ≤ th) →
        ((pilThumbnail img.width img.height tw th).2 = th ∧
          ((pilThumbnail img.width img.height tw th).1 =
              max (Int.toNat (Int.floor ((img.width : ℚ) * ((th : ℚ) / (img.height : ℚ))))) 1 ∨
           (pilThumbnail img.width img.height tw th).1 =
              max (Int.toNat (Int.ceil ((img.width : ℚ) * ((th : ℚ) / (img.height : ℚ))))) 1)) ∨
        ((pilThumbnail img.width img.height tw th).1 = tw ∧
          ((pilThumbnail img.width img.height tw th).2 =
              max (Int.toNat (Int.floor ((img.height : ℚ) * ((tw : ℚ) / (img.width : ℚ))))) 1 ∨
           (pilThumbnail img.width img.height tw th).2 =
              max (Int.toNat (Int.ceil ((img.height : ℚ) * ((tw : ℚ) / (img.width : ℚ))))) 1)))) := by
  obtain ⟨b, k, hb, hk, hputs, hout⟩ := generateThumbnails_ok h
  refine ⟨?_, ?_, ?_⟩
  · rw [hputs, List.length_map]
  · intro i hi hp
    have : res.puts.get ⟨i, hp⟩ =
        { bucket := tb,
          key := thumbKey ((pySplitext (pyBasename (unquotePlus k))).1)
            (sizes.get ⟨i, hi⟩).1 (sizes.get ⟨i, hi⟩).2 (normalizeFormat img.format),
          width := (pilThumbnail img.width img.height (sizes.get ⟨i, hi⟩).1 (sizes.get ⟨i, hi⟩).2).1,
          height := (pilThumbnail img.width img.height (sizes.get ⟨i, hi⟩).1 (sizes.get ⟨i, hi⟩).2).2 } := by
      have hg := List.get_of_eq hputs ⟨i, hp⟩
      rw [hg, List.get_map]
    rw [this]
  · intro tw th htw hth
    exact pilThumbnail_spec img.width img.height tw th hw hh htw hth

/-- C4 witness: the amended theorem applied to a concrete run with an
800 by 600 image and a 128 by 128 box. -/
theorem C4_fit_within_box_witness :
    ∃ res, generateThumbnails (some "tb") [(128, 128)]
        { s3_bucket := some "b", s3_key := some "uploads/cat.jpg" }
        (.ok { format := some "JPEG", width := 800, height := 600, mode := "RGB" }) =
        .ok res ∧
      (res.puts.length = [(128, 128)].length ∧
       (∀ i (hi : i < [((128 : Nat), (128 : Nat))].length) (hp : i < res.puts.length),
         ((res.puts.get ⟨i, hp⟩).width, (res.puts.get ⟨i, hp⟩).height) =
           pilThumbnail 800 600 ([((128 : Nat), (128 : Nat))].get ⟨i, hi⟩).1
             ([((128 : Nat), (128 : Nat))].get ⟨i, hi⟩).2) ∧
       (∀ tw th, 1 ≤ tw → 1 ≤ th →
         (pilThumbnail 800 600 tw th).1 ≤ tw ∧
         (pilThumbnail 800 600 tw th).2 ≤ th ∧
         (800 ≤ tw ∧ 600 ≤ th → pilThumbnail 800 600 tw th = (800, 600)) ∧
         (¬(800 ≤ tw ∧ 600 ≤ th) →
           ((pilThumbnail 800 600 tw th).2 = th ∧
             ((pilThumbnail 800 600 tw th).1 =
                 max (Int.toNat (Int.floor ((800 : ℚ) * ((th : ℚ) / (600 : ℚ))))) 1 ∨
              (pilThumbnail 800 600 tw th).1 =
                 max (Int.toNat (Int.ceil ((800 : ℚ) * ((th : ℚ) / (600 : ℚ))))) 1)) ∨
           ((pilThumbnail 800 600 tw th).1 = tw ∧
             ((pilThumbnail 800 600 tw th).2 =
                 max (Int.toNat (Int.floor ((600 : ℚ) * ((tw : ℚ) / (800 : ℚ))))) 1 ∨
              (pilThumbnail 800 600 tw th).2 =
                 max (Int.toNat (Int.ceil ((600 : ℚ) * ((tw : ℚ) / (800 : ℚ))))) 1))))) :=
  ⟨_, rfl,
   C4_fit_within_box "tb" [(128, 128)]
     { s3_bucket := some "b", s3_key := some "uploads/cat.jpg" }
     { format := some "JPEG", width := 800, height := 600, mode := "RGB" } _ rfl
     (by decide) (by decide)⟩

/-- C5 counterexample: for source key `uploads/cat.jpg` the thumbnail is
uploaded at `thumbnails/cat_128x128.jpeg` — `os.path.basename` drops the
directory components, so the key is not
`thumbnails/uploads/cat_128x128.jpeg` as the claim's baseName (the whole
identifier with the final segment's extension stripped) would give. -/
theorem C5_directory_dropped_from_key :
    ∃ res, generateThumbnails (some "tb") [(128, 128)]
        { s3_bucket := some "b", s3_key := some "uploads/cat.jpg" }
        (.ok { format := some "JPEG", width := 800, height := 600, mode := "RGB" }) =
        .ok res ∧
      res.puts.map Put.key = ["thumbnails/cat_128x128.jpeg"] ∧
      res.puts.map Put.key ≠ ["thumbnails/uploads/cat_128x128.jpeg"] := by
  refine ⟨_, rfl, rfl, ?_⟩
  intro hcon
  have h1 : ("thumbnails/cat_128x128.jpeg" : String) = "thumbnails/uploads/cat_128x128.jpeg" := by
    have := List.head_eq_of_cons_eq hcon
    exact this
  exact absurd h1 (by decide)

/-- C5 amended: every thumbnail is uploaded at exactly
`thumbnails/{base}_{width}x{height}.{ext}` where `base` is the final path
segment of the decoded source identifier with its extension stripped, and
`ext` is the lower-cased output format: the native format when its
upper-casing is JPEG or PNG, and JPEG otherwise (also when PIL reports no
format). -/
theorem C5_key_from_basename_and_format (tb : String) (sizes : List (Nat × Nat))
    (ev : PipeState) (img : SrcImage) (res : ThumbResult)
    (h : generateThumbnails (some tb) sizes ev (.ok img) = .ok res) :
    (∃ k, ev.s3_key = some k ∧
      res.puts.map Put.key = sizes.map (fun wh =>
        "thumbnails/" ++ (pySplitext (pyBasename (unquotePlus k))).1 ++ "_" ++
          toString wh.1 ++ "x" ++ toString wh.2 ++ "." ++
          pyLower (normalizeFormat img.format))) ∧
    (∀ s : String, s ≠ "" → pyUpper s ∈ ["JPEG", "PNG"] → normalizeFormat (some s) = s) ∧
    (∀ s : String, pyUpper s ∉ ["JPEG", "PNG"] → normalizeFormat (some s) = "JPEG") ∧
    normalizeFormat none = "JPEG" := by
  obtain ⟨b, k, hb, hk, hputs, hout⟩ := generateThumbnails_ok h
  refine ⟨⟨k, hk, ?_⟩, ?_, ?_, rfl⟩
  · rw [hputs, List.map_map]
    rfl
  · intro s hne hmem
    simp [normalizeFormat, hne, hmem]
  · intro s hmem
    by_cases hne : s = ""
    · subst hne
      rfl
    · simp [normalizeFormat, hne, hmem]

/-- C5 witness: the amended theorem applied to a concrete run with a GIF
source, checking the JPEG fallback in the derived key. -/
theorem C5_key_from_basename_and_format_witness :
    ∃ res, generateThumbnails (some "tb") [(128, 128)]
        { s3_bucket := some "b", s3_key := some "uploads/cat.jpg" }
        (.ok { format := some "GIF", width := 800, height := 600, mode := "P" }) =
        .ok res ∧
      ((∃ k, ({ s3_bucket := some "b", s3_key := some "uploads/cat.jpg" } :
            PipeState).s3_key = some k ∧
        res.puts.map Put.key = [((128 : Nat), (128 : Nat))].map (fun wh =>
          "thumbnails/" ++ (pySplitext (pyBasename (unquotePlus k))).1 ++ "_" ++
            toString wh.1 ++ "x" ++ toString wh.2 ++ "." ++
            pyLower (normalizeFormat (some "GIF")))) ∧
      (∀ s : String, s ≠ "" → pyUpper s ∈ ["JPEG", "PNG"] → normalizeFormat (some s) = s) ∧
      (∀ s : String, pyUpper s ∉ ["JPEG", "PNG"] → normalizeFormat (some s) = "JPEG") ∧
      normalizeFormat none = "JPEG") :=
  ⟨_, rfl,
   C5_key_from_basename_and_format "tb" [(128, 128)]
     { s3_bucket := some "b", s3_key := some "uploads/cat.jpg" }
     { format := some "GIF", width := 800, height := 600, mode := "P" } _ rfl⟩
